import Mathlib

/-!
# Entity handles and reference resolution

A shallow embedding of the handle type of `apps/openmw/mwworld/ptr.hpp`
(`MWWorld::PtrBase`, shared by `Ptr` and `ConstPtr`) and of the reference
resolution step the specification describes for the content-file mapping
installed through `LuaManager::setContentFileMapping`.

Conventions of the embedding:

* a C++ pointer is an address, a natural number, and `nullptr` is address 0;
  the objects behind non-null addresses live in an explicit `Heap`;
* `throw std::runtime_error (msg)` is `Except.error msg`, a normal return is
  `Except.ok`;
* a failed `assert` is `Except.error` carrying the asserted expression.
-/

namespace MWWorld

/-- An address; the value 0 is `nullptr`. -/
abbrev Addr := Nat

/-- The null pointer constant. -/
abbrev nullptr : Addr := 0

/-- What `ptr.hpp` uses of `MWWorld::CellRef` (declared in `cellref.hpp`):
the string handed out by `getRefId()`. -/
structure CellRef where
  mRefId : String
  deriving DecidableEq, Repr

/-- Accessor `CellRef::getRefId`. -/
def CellRef.getRefId (c : CellRef) : String := c.mRefId

/-- What `ptr.hpp` uses of `MWWorld::LiveCellRefBase` (declared in
`livecellref.hpp`): the class pointer `mClass`, the cell reference `mRef`, and
the record type id that the virtual `getType()` of the object answers. -/
structure LiveCellRefBase where
  mClass : Addr
  mRef : CellRef
  recordId : Nat
  deriving DecidableEq, Repr

/-- Virtual `LiveCellRefBase::getType`: the 32-bit id of the ESM record the
object is based on. -/
def LiveCellRefBase.getType (o : LiveCellRefBase) : Nat := o.recordId

/-- The objects behind non-null addresses: live cell references and the
`Class` singletons they point to. `Class` itself is kept abstract. Every
non-null pointer is taken to point at an object (dereferencing a dangling
pointer is undefined in the source), so both maps are total. -/
structure Heap (Class : Type) where
  liveCellRef : Addr → LiveCellRefBase
  classAt : Addr → Class

/-- The two enumerators of `ESM::RecNameInts` that `getLuaType` names; their
numeric values are fixed in `components/esm/defs.hpp` and are taken as given. -/
structure RecNameInts where
  REC_INTERNAL_PLAYER : Nat
  REC_INTERNAL_MARKER : Nat
  deriving DecidableEq, Repr

/-- The handle `PtrBase<TypeTransform>`: three raw pointers. `Ptr` and
`ConstPtr` differ only in the constness of the pointees, which does not show
in the embedding. -/
structure PtrBase where
  mRef : Addr
  mCell : Addr
  mContainerStore : Addr
  deriving DecidableEq, Repr

/-- Constructor `Ptr(liveCellRef = nullptr, cell = nullptr)`: the container
store starts out null. -/
def Ptr (liveCellRef : Addr) (cell : Addr) : PtrBase :=
  { mRef := liveCellRef, mCell := cell, mContainerStore := nullptr }

/-- Constructor `ConstPtr(const Ptr&)`: copies all three pointers. -/
def ConstPtr (ptr : PtrBase) : PtrBase :=
  { mRef := ptr.mRef, mCell := ptr.mCell, mContainerStore := ptr.mContainerStore }

namespace PtrBase

/-- Method `isEmpty`: `return mRef == nullptr;` -/
def isEmpty (p : PtrBase) : Bool := p.mRef == nullptr

/-- Method `getType`: the record type id of the referenced object, or a
runtime error on an empty handle. -/
def getType {Class : Type} (h : Heap Class) (p : PtrBase) : Except String Nat :=
  if p.mRef != nullptr then
    Except.ok (h.liveCellRef p.mRef).getType
  else
    Except.error "Can't get type name from an empty object."

/-- Method `getLuaType`: like `getType`, but the special refids are answered
with the internal record ids. -/
def getLuaType {Class : Type} (ids : RecNameInts) (h : Heap Class) (p : PtrBase) :
    Except String Nat :=
  if p.mRef == nullptr then
    Except.error "Can't get type name from an empty object."
  else
    let id := (h.liveCellRef p.mRef).mRef.getRefId
    if id == "player" then
      Except.ok ids.REC_INTERNAL_PLAYER
    else if id == "prisonmarker" || id == "divinemarker" || id == "templemarker"
        || id == "northmarker" then
      Except.ok ids.REC_INTERNAL_MARKER
    else
      Except.ok (h.liveCellRef p.mRef).getType

/-- Method `getClass`: `*(mRef->mClass)`, or a runtime error on an empty
handle. -/
def getClass {Class : Type} (h : Heap Class) (p : PtrBase) : Except String Class :=
  if p.mRef != nullptr then
    Except.ok (h.classAt (h.liveCellRef p.mRef).mClass)
  else
    Except.error "Cannot get class of an empty object"

/-- Method `getBase`: the pointer `mRef` itself, or a runtime error when it is
null. -/
def getBase (p : PtrBase) : Except String Addr :=
  if p.mRef == nullptr then
    Except.error "Can't access cell ref pointed to by null Ptr"
  else
    Except.ok p.mRef

/-- Method `isInCell`: `(mContainerStore == nullptr) && (mCell != nullptr)`. -/
def isInCell (p : PtrBase) : Bool :=
  (p.mContainerStore == nullptr) && (p.mCell != nullptr)

/-- Method `setContainerStore`: two assertions, then the assignment
`mContainerStore = store`. The result is the handle after the call; a failed
assertion is reported with the asserted expression. -/
def setContainerStore (p : PtrBase) (store : Addr) : Except String PtrBase :=
  if store == nullptr then
    Except.error "store"
  else if p.mCell != nullptr then
    Except.error "!mCell"
  else
    Except.ok { p with mContainerStore := store }

/-- Method `getContainerStore`: `return mContainerStore;` -/
def getContainerStore (p : PtrBase) : Addr := p.mContainerStore

/-- Conversion `operator const void *`: `return mRef;` -/
def toConstVoidPtr (p : PtrBase) : Addr := p.mRef

end PtrBase

end MWWorld

/-! ## Reference resolution -/

/-- The cross-file entity reference: a local index and a content-file index. -/
structure ReferenceId where
  index : Nat
  fileIndex : Nat
  deriving DecidableEq, Repr

/-- The error kinds of the decoding engine. -/
inductive FormatError where
  | Truncated
  | CorruptCompression
  | MissingField
  | TruncatedSubrecord
  | UnmappedContentFile
  | UnknownGroupType
  deriving DecidableEq, Repr

/-- The remapping table, the `std::map<int, int>` handed to
`LuaManager::setContentFileMapping`: pairs of an old content-file index and
its new index, searched by key. -/
abbrev RemappingTable := List (Nat × Nat)

/-- Table lookup `T[fileIndex]`; `none` when the table has no entry. -/
def RemappingTable.find (T : RemappingTable) (fileIndex : Nat) : Option Nat :=
  List.lookup fileIndex T

/-- Modelled from the spec: the body of `resolve` is not part of the visible
sources (only the declaration of `LuaManager::setContentFileMapping` is).
Following section 4.4 and the testable properties: a fileIndex of zero needs no
remap and is answered unchanged whatever the table holds; otherwise the
fileIndex is replaced by the table entry, and a missing entry is
`FormatError::UnmappedContentFile`. -/
def resolve (r : ReferenceId) (T : RemappingTable) : Except FormatError ReferenceId :=
  if r.fileIndex = 0 then
    Except.ok r
  else
    match T.find r.fileIndex with
    | some f => Except.ok { index := r.index, fileIndex := f }
    | none => Except.error FormatError.UnmappedContentFile

/-! ## Concrete data used in the examples -/

namespace MWWorld

/-- A small heap: address 1 holds a door record used as the prison marker,
address 2 the player (an NPC record), address 3 an ordinary creature. -/
def sampleHeap : Heap String where
  liveCellRef := fun a =>
    if a = 1 then { mClass := 10, mRef := { mRefId := "prisonmarker" }, recordId := 0x524F4F44 }
    else if a = 2 then { mClass := 11, mRef := { mRefId := "player" }, recordId := 0x5F43504E }
    else { mClass := 12, mRef := { mRefId := "rat" }, recordId := 0x41455243 }
  classAt := fun a =>
    if a = 10 then "Door" else if a = 11 then "Npc" else "Creature"

/-- Sample values for the two internal record ids. -/
def sampleIds : RecNameInts :=
  { REC_INTERNAL_PLAYER := 0, REC_INTERNAL_MARKER := 1 }

end MWWorld

/-! ## Lemmas on the handle -/

namespace MWWorld

theorem PtrBase.isEmpty_false_iff (p : PtrBase) : p.isEmpty = false ↔ p.mRef ≠ nullptr := by
  simp [PtrBase.isEmpty]

end MWWorld

/-! ## The claims -/

/-- C2: for every handle, each of getType, getLuaType, getClass and getBase
raises a runtime error exactly when the handle is empty; on a non-empty handle
getType answers the record type id of the referenced object, getBase answers
mRef itself and getClass answers the class of the referenced object. -/
theorem accessors_throw_iff_empty {Class : Type} (ids : MWWorld.RecNameInts)
    (h : MWWorld.Heap Class) (p : MWWorld.PtrBase) :
    ((∃ msg, p.getType h = Except.error msg) ↔ p.isEmpty = true) ∧
    ((∃ msg, p.getLuaType ids h = Except.error msg) ↔ p.isEmpty = true) ∧
    ((∃ msg, p.getClass h = Except.error msg) ↔ p.isEmpty = true) ∧
    ((∃ msg, p.getBase = Except.error msg) ↔ p.isEmpty = true) ∧
    (p.isEmpty = false →
      p.getType h = Except.ok (h.liveCellRef p.mRef).getType ∧
      p.getBase = Except.ok p.mRef ∧
      p.getClass h = Except.ok (h.classAt (h.liveCellRef p.mRef).mClass)) := by
  by_cases hp : p.mRef = 0
  · simp [MWWorld.PtrBase.getType, MWWorld.PtrBase.getLuaType, MWWorld.PtrBase.getClass,
      MWWorld.PtrBase.getBase, MWWorld.PtrBase.isEmpty, hp]
  · refine ⟨?_, ?_, ?_, ?_, ?_⟩
    · simp [MWWorld.PtrBase.getType, MWWorld.PtrBase.isEmpty, hp]
    · simp only [MWWorld.PtrBase.getLuaType, MWWorld.PtrBase.isEmpty]
      simp only [beq_iff_eq, hp, if_false]
      constructor
      · rintro ⟨msg, hm⟩
        split_ifs at hm
      · intro hf
        exact absurd hf (by simp)
    · simp [MWWorld.PtrBase.getClass, MWWorld.PtrBase.isEmpty, hp]
    · simp [MWWorld.PtrBase.getBase, MWWorld.PtrBase.isEmpty, hp]
    · intro _
      simp [MWWorld.PtrBase.getType, MWWorld.PtrBase.getClass, MWWorld.PtrBase.getBase, hp]

/-- C2 at concrete handles: the empty handle makes all four accessors throw,
and the handle to the creature at address 3 answers its record id, its own
address and its class. -/
theorem accessors_throw_iff_empty_witness :
    (∃ msg, (MWWorld.Ptr 0 0).getType MWWorld.sampleHeap = Except.error msg) ∧
    (∃ msg, (MWWorld.Ptr 0 0).getLuaType MWWorld.sampleIds MWWorld.sampleHeap
      = Except.error msg) ∧
    (∃ msg, (MWWorld.Ptr 0 0).getClass MWWorld.sampleHeap = Except.error msg) ∧
    (∃ msg, (MWWorld.Ptr 0 0).getBase = Except.error msg) ∧
    (MWWorld.Ptr 3 7).getType MWWorld.sampleHeap = Except.ok 0x41455243 ∧
    (MWWorld.Ptr 3 7).getBase = Except.ok 3 ∧
    (MWWorld.Ptr 3 7).getClass MWWorld.sampleHeap = Except.ok "Creature" :=
  have e := accessors_throw_iff_empty MWWorld.sampleIds MWWorld.sampleHeap (MWWorld.Ptr 0 0)
  have n := accessors_throw_iff_empty MWWorld.sampleIds MWWorld.sampleHeap (MWWorld.Ptr 3 7)
  ⟨e.1.2 rfl, e.2.1.2 rfl, e.2.2.1.2 rfl, e.2.2.2.1.2 rfl, n.2.2.2.2 rfl⟩

/-- C3: on a non-empty handle getLuaType answers REC_INTERNAL_PLAYER when the
refid of the referenced object is exactly "player", REC_INTERNAL_MARKER when it
is exactly one of "prisonmarker", "divinemarker", "templemarker",
"northmarker", and for every other refid the same value as getType. -/
theorem getLuaType_special_refids {Class : Type} (ids : MWWorld.RecNameInts)
    (h : MWWorld.Heap Class) (p : MWWorld.PtrBase) (hne : p.isEmpty = false) :
    ((h.liveCellRef p.mRef).mRef.getRefId = "player" →
      p.getLuaType ids h = Except.ok ids.REC_INTERNAL_PLAYER) ∧
    ((h.liveCellRef p.mRef).mRef.getRefId ∈
        ["prisonmarker", "divinemarker", "templemarker", "northmarker"] →
      p.getLuaType ids h = Except.ok ids.REC_INTERNAL_MARKER) ∧
    ((h.liveCellRef p.mRef).mRef.getRefId ∉
        ["player", "prisonmarker", "divinemarker", "templemarker", "northmarker"] →
      p.getLuaType ids h = p.getType h) := by
  have hp : p.mRef ≠ 0 := (MWWorld.PtrBase.isEmpty_false_iff p).1 hne
  refine ⟨?_, ?_, ?_⟩
  · intro hid
    simp [MWWorld.PtrBase.getLuaType, hp, hid]
  · intro hid
    have hnp : (h.liveCellRef p.mRef).mRef.getRefId ≠ "player" := by
      intro hpl
      rw [hpl] at hid
      revert hid
      decide
    simp only [List.mem_cons, List.mem_singleton, List.not_mem_nil, or_false] at hid
    simp only [MWWorld.PtrBase.getLuaType, beq_iff_eq, hp, if_false, hnp, Bool.or_eq_true]
    rw [if_pos]
    rcases hid with h1 | h1 | h1 | h1
    · exact Or.inl (Or.inl (Or.inl h1))
    · exact Or.inl (Or.inl (Or.inr h1))
    · exact Or.inl (Or.inr h1)
    · exact Or.inr h1
  · intro hid
    simp only [List.mem_cons, List.mem_singleton, List.not_mem_nil, or_false, not_or] at hid
    obtain ⟨h0, h1, h2, h3, h4⟩ := hid
    simp [MWWorld.PtrBase.getLuaType, MWWorld.PtrBase.getType, hp, h0, h1, h2, h3, h4]

/-- C3 at concrete handles: the player, the prison marker and a creature. -/
theorem getLuaType_special_refids_witness :
    (MWWorld.Ptr 2 0).getLuaType MWWorld.sampleIds MWWorld.sampleHeap = Except.ok 0 ∧
    (MWWorld.Ptr 1 0).getLuaType MWWorld.sampleIds MWWorld.sampleHeap = Except.ok 1 ∧
    (MWWorld.Ptr 3 0).getLuaType MWWorld.sampleIds MWWorld.sampleHeap
      = (MWWorld.Ptr 3 0).getType MWWorld.sampleHeap :=
  ⟨(getLuaType_special_refids MWWorld.sampleIds MWWorld.sampleHeap (MWWorld.Ptr 2 0) rfl).1 rfl,
   (getLuaType_special_refids MWWorld.sampleIds MWWorld.sampleHeap (MWWorld.Ptr 1 0) rfl).2.1
     (by decide),
   (getLuaType_special_refids MWWorld.sampleIds MWWorld.sampleHeap (MWWorld.Ptr 3 0) rfl).2.2
     (by decide)⟩

/-- C4: the conversion to const void* answers a null pointer exactly when the
handle is empty, and a non-null pointer exactly when it is not. -/
theorem toConstVoidPtr_null_iff_empty (p : MWWorld.PtrBase) :
    (p.toConstVoidPtr = MWWorld.nullptr ↔ p.isEmpty = true) ∧
    (p.toConstVoidPtr ≠ MWWorld.nullptr ↔ p.isEmpty = false) := by
  simp [MWWorld.PtrBase.toConstVoidPtr, MWWorld.PtrBase.isEmpty]

/-- C4 at concrete handles: the default handle converts to null, a handle to
address 3 does not. -/
theorem toConstVoidPtr_null_iff_empty_witness :
    (MWWorld.Ptr 0 0).toConstVoidPtr = MWWorld.nullptr ∧
    (MWWorld.ConstPtr (MWWorld.Ptr 3 7)).toConstVoidPtr ≠ MWWorld.nullptr :=
  ⟨(toConstVoidPtr_null_iff_empty (MWWorld.Ptr 0 0)).1.2 rfl,
   (toConstVoidPtr_null_iff_empty (MWWorld.ConstPtr (MWWorld.Ptr 3 7))).2.2 rfl⟩

/-- C5: both assertions of setContainerStore pass exactly when the store is
non-null and mCell is null, so they fail on every handle that is in a cell;
when they pass, getContainerStore then answers the store, isInCell is false,
and mRef, mCell and isEmpty are as before. -/
theorem setContainerStore_contract (p : MWWorld.PtrBase) (s : MWWorld.Addr) :
    ((∃ q, p.setContainerStore s = Except.ok q) ↔
      (s ≠ MWWorld.nullptr ∧ p.mCell = MWWorld.nullptr)) ∧
    (p.isInCell = true → ∃ msg, p.setContainerStore s = Except.error msg) ∧
    (∀ q, p.setContainerStore s = Except.ok q →
      q.getContainerStore = s ∧ q.isInCell = false ∧
      q.mRef = p.mRef ∧ q.mCell = p.mCell ∧ q.isEmpty = p.isEmpty) := by
  refine ⟨?_, ?_, ?_⟩
  · by_cases hs : s = 0 <;> by_cases hc : p.mCell = 0 <;>
      simp [MWWorld.PtrBase.setContainerStore, hs, hc]
  · intro hin
    have hc : p.mCell ≠ 0 := by
      simp [MWWorld.PtrBase.isInCell] at hin
      exact hin.2
    by_cases hs : s = 0 <;> simp [MWWorld.PtrBase.setContainerStore, hs, hc]
  · intro q hq
    by_cases hs : s = 0
    · simp [MWWorld.PtrBase.setContainerStore, hs] at hq
    · by_cases hc : p.mCell = 0
      · simp only [MWWorld.PtrBase.setContainerStore, beq_iff_eq, hs, if_false, hc,
          bne_self_eq_false, Bool.false_eq_true, Except.ok.injEq] at hq
        subst hq
        simp [MWWorld.PtrBase.getContainerStore, MWWorld.PtrBase.isInCell,
          MWWorld.PtrBase.isEmpty, hs, hc]
      · simp [MWWorld.PtrBase.setContainerStore, hs, hc] at hq

/-- C5 at concrete handles: a handle outside any cell accepts store 9 and then
reports it; a handle in cell 7 fails the assertions. -/
theorem setContainerStore_contract_witness :
    (∃ q, (MWWorld.Ptr 3 0).setContainerStore 9 = Except.ok q) ∧
    (∃ msg, (MWWorld.Ptr 3 7).setContainerStore 9 = Except.error msg) ∧
    MWWorld.PtrBase.getContainerStore
      { mRef := 3, mCell := 0, mContainerStore := 9 } = 9 :=
  ⟨(setContainerStore_contract (MWWorld.Ptr 3 0) 9).1.2 ⟨by decide, rfl⟩,
   (setContainerStore_contract (MWWorld.Ptr 3 7) 9).2.1 rfl,
   ((setContainerStore_contract (MWWorld.Ptr 3 0) 9).2.2
     { mRef := 3, mCell := 0, mContainerStore := 9 } rfl).1⟩

/-- C1, as stated, fails at fileIndex 0 with a table that has an entry for 0:
the table defines the fileIndex, yet resolve answers the input unchanged and
not the table entry. -/
theorem resolve_zero_entry_counterexample :
    RemappingTable.find [(0, 5)] 0 = some 5 ∧
    resolve { index := 7, fileIndex := 0 } [(0, 5)]
      = Except.ok { index := 7, fileIndex := 0 } ∧
    resolve { index := 7, fileIndex := 0 } [(0, 5)]
      ≠ Except.ok { index := 7, fileIndex := 5 } := by
  refine ⟨rfl, rfl, ?_⟩
  intro hEq
  have hr := Except.ok.inj hEq
  exact absurd (congrArg ReferenceId.fileIndex hr) (by decide)

/-- C1, amended: if the fileIndex is nonzero and the table defines it, resolve
answers the same index with the table entry as fileIndex; if the fileIndex is
zero, resolve answers the input unchanged whatever the table holds; if the
fileIndex is nonzero and the table has no entry, resolve fails with
UnmappedContentFile; and whenever resolve answers, the index is unchanged. -/
theorem resolve_contract (r : ReferenceId) (T : RemappingTable) :
    (∀ f, r.fileIndex ≠ 0 → T.find r.fileIndex = some f →
      resolve r T = Except.ok { index := r.index, fileIndex := f }) ∧
    (r.fileIndex = 0 → resolve r T = Except.ok r) ∧
    (r.fileIndex ≠ 0 → T.find r.fileIndex = none →
      resolve r T = Except.error FormatError.UnmappedContentFile) ∧
    (∀ q, resolve r T = Except.ok q → q.index = r.index) := by
  refine ⟨?_, ?_, ?_, ?_⟩
  · intro f hz hf
    simp [resolve, hz, hf]
  · intro hz
    simp [resolve, hz]
  · intro hz hf
    simp [resolve, hz, hf]
  · intro q hq
    by_cases hz : r.fileIndex = 0
    · simp only [resolve, hz, if_true, Except.ok.injEq] at hq
      rw [← hq]
    · cases hf : T.find r.fileIndex with
      | none => simp [resolve, hz, hf] at hq
      | some f =>
        simp only [resolve, hz, if_false, hf, Except.ok.injEq] at hq
        rw [← hq]

/-- C1, amended, on the scenario of the specification: {index 12, fileIndex 3}
against the table {3 to 1} and against the empty table, and a zero fileIndex
against a table with an entry for 0. -/
theorem resolve_contract_witness :
    resolve { index := 12, fileIndex := 3 } [(3, 1)]
      = Except.ok { index := 12, fileIndex := 1 } ∧
    resolve { index := 7, fileIndex := 0 } [(0, 5)]
      = Except.ok { index := 7, fileIndex := 0 } ∧
    resolve { index := 12, fileIndex := 3 } []
      = Except.error FormatError.UnmappedContentFile :=
  ⟨(resolve_contract { index := 12, fileIndex := 3 } [(3, 1)]).1 1 (by decide) rfl,
   (resolve_contract { index := 7, fileIndex := 0 } [(0, 5)]).2.1 rfl,
   (resolve_contract { index := 12, fileIndex := 3 } []).2.2.1 (by decide) rfl⟩
